import Mathlib

/-!
Shallow embedding of the `ts-scaffolder-scripts` repository:
the build driver (the unnamed driver file) and the project scaffolder
(`src/init.js`).  Pure functions of the source become Lean functions;
process side effects (folder cleanup, watch session, batch build) become
explicit effect lists; fallible code returns `Except`.
-/

/- ### Path helpers (node `path` module, as used by the driver)

`path.isAbsolute` and a two-argument `path.resolve(a, b)` relative to an
explicit working directory `cwd`.  Normalisation of `.`/`..` segments is
not performed by the embedding; the driver never relies on it. -/

/-- `String.startsWith`, computed on the character lists so that concrete
instances reduce inside the kernel. -/
def strStartsWith (s pre : String) : Bool := pre.data.isPrefixOf s.data

/-- `String.endsWith`, computed on the character lists. -/
def strEndsWith (s suffix : String) : Bool := suffix.data.isSuffixOf s.data

/-- `String.dropRight`, computed on the character lists. -/
def strDropRight (s : String) (n : Nat) : String :=
  String.mk (s.data.take (s.data.length - n))

/-- Splitting a character list at every occurrence of a separator; the
single-character case of `String.split`. -/
def splitOnChar (c : Char) : List Char → List (List Char)
  | [] => [[]]
  | x :: xs =>
      if x = c then [] :: splitOnChar c xs
      else
        match splitOnChar c xs with
        | [] => [[x]]
        | r :: rs => (x :: r) :: rs

def isAbsolute (p : String) : Bool := strStartsWith p "/"

def pathJoin (a b : String) : String := a ++ "/" ++ b

def pathResolve (cwd a b : String) : String :=
  if isAbsolute b then b
  else if isAbsolute a then pathJoin a b
  else pathJoin cwd (pathJoin a b)

/- ### ResolvedConfig (the convict schema of the driver) -/

structure InputConfig where
  folder : String
  envPrefix : String
  htmlTemplate : String
deriving DecidableEq, Repr

structure OutputConfig where
  bundle : String
  folder : String
  umdName : String
  minify : Bool
  banner : String
  isWebapp : Bool
deriving DecidableEq, Repr

structure ResolvedConfig where
  watch : Bool
  debug : Bool
  input : InputConfig
  output : OutputConfig
deriving DecidableEq, Repr

/- ### computedOptions (derived absolute paths) -/

structure ComputedOptions where
  bundlePath : String
  minifiedBundlePath : String
  htmlTemplatePath : String
deriving DecidableEq, Repr

def computedOptions (cfg : ResolvedConfig) (cwd : String) : ComputedOptions :=
  { bundlePath := pathResolve cwd cfg.output.folder cfg.output.bundle ++ ".js"
    minifiedBundlePath := pathResolve cwd cfg.output.folder cfg.output.bundle ++ ".min.js"
    htmlTemplatePath := pathResolve cwd cfg.input.folder cfg.input.htmlTemplate }

/- ### Rollup plugins (pipeline stage descriptors) -/

inductive RollupPlugin where
  | nodeResolve (jsnext mainField : Bool)
  | commonjs (includePattern : String) (extensions : List String)
  | typescript2
  | uglify
  | replace (map : List (String × String))
  | generateHtmlTemplate (template target : String)
  | browsersync (server staticRoute staticDir : String)
deriving DecidableEq, Repr

def pluginName : RollupPlugin → String
  | .nodeResolve _ _ => "node-resolve"
  | .commonjs _ _ => "commonjs"
  | .typescript2 => "typescript2"
  | .uglify => "uglify"
  | .replace _ => "replace"
  | .generateHtmlTemplate _ _ => "generate-html-template"
  | .browsersync _ _ _ => "browsersync"

def defaultPlugins : List RollupPlugin :=
  [ RollupPlugin.nodeResolve true true,
    RollupPlugin.commonjs "node_modules/**" [".js"],
    RollupPlugin.typescript2 ]

/- ### Bundle configuration (the PipelineDescription) -/

structure OutputDescriptor where
  file : String
  name : String
  format : String
  banner : Option String
  sourcemap : Option String
deriving DecidableEq, Repr, Inhabited

/-- The `{ output, plugins }` options object passed to `createBundleConfig`;
its `output` part is spread over the base output descriptor. -/
structure OutputOverride where
  banner : Option String
  sourcemap : Option String
deriving DecidableEq, Repr

structure BundleConfig where
  input : String
  output : OutputDescriptor
  plugins : List RollupPlugin
deriving DecidableEq, Repr, Inhabited

def createBundleConfig (cfg : ResolvedConfig) (cwd dest : String)
    (ov : OutputOverride) (plugins : List RollupPlugin) : BundleConfig :=
  { input := pathResolve cwd cfg.input.folder "index.ts"
    output :=
      { file := dest
        name := cfg.output.umdName
        format := "umd"
        banner := ov.banner
        sourcemap := ov.sourcemap }
    plugins := plugins }

/-- `JSON.stringify` applied to a plain string value (escaping of special
characters inside the value is not modelled; the driver only stringifies
environment-variable values and the literals "development"/"production"). -/
def jsonStringify (s : String) : String := "\"" ++ s ++ "\""

/-- `getWebappEnvConfig` from the driver.  The source filter predicate is
`name.startsWith(envPrefix) && name.length > options.exportedEnvPrefix.length`
where `options` is never defined anywhere in the file, so evaluating the
second conjunct throws `ReferenceError: options is not defined`.  The second
conjunct is reached exactly when some environment variable name starts with
the prefix; when none does, the filter yields the empty list and the reduce
yields the empty map. -/
def getWebappEnvConfig (env : List (String × String)) ( envPrefix : String) :
    Except String (List (String × String)) :=
  if env.any (fun kv => strStartsWith kv.fst envPrefix) then
    Except.error "ReferenceError: options is not defined"
  else
    Except.ok []

/-- The watch / build branch of the driver: the bundle configuration before
webapp augmentation. -/
def rollupConfigBase (cfg : ResolvedConfig) (cwd : String) : BundleConfig :=
  if cfg.watch then
    createBundleConfig cfg cwd (computedOptions cfg cwd).bundlePath
      { banner := some cfg.output.banner, sourcemap := some "inline" }
      defaultPlugins
  else
    createBundleConfig cfg cwd
      (if cfg.output.minify then (computedOptions cfg cwd).minifiedBundlePath
       else (computedOptions cfg cwd).bundlePath)
      { banner := some cfg.output.banner, sourcemap := none }
      (defaultPlugins ++ if cfg.output.minify then [RollupPlugin.uglify] else [])

/-- The two stages pushed by the webapp augmentation block:
`rollupPluginReplace` over the webapp env map plus the hard-coded
`process.env.NODE_ENV` substitution, then `rollupPluginHtmlTemplate`. -/
def webappPlugins (cfg : ResolvedConfig) (cwd : String)
    (envCfg : List (String × String)) : List RollupPlugin :=
  [ RollupPlugin.replace
      (envCfg ++
        [("process.env.NODE_ENV",
          jsonStringify (if cfg.watch then "development" else "production"))]),
    RollupPlugin.generateHtmlTemplate
      (computedOptions cfg cwd).htmlTemplatePath "index.html" ]

/-- Assembly of `rollupConfig`: the watch/build branch, then the webapp
augmentation (replace + html template, and browsersync when also watching).
`env` is the process environment at assembly time. -/
def rollupConfig (cfg : ResolvedConfig) (env : List (String × String))
    (cwd : String) : Except String BundleConfig :=
  let base := rollupConfigBase cfg cwd
  if cfg.output.isWebapp then
    match getWebappEnvConfig env cfg.input.envPrefix with
    | Except.error e => Except.error e
    | Except.ok envCfg =>
        let p2 := base.plugins ++ webappPlugins cfg cwd envCfg
        Except.ok
          { base with
            plugins :=
              if cfg.watch then
                p2 ++ [RollupPlugin.browsersync cfg.output.folder "/static" "static"]
              else p2 }
  else
    Except.ok base

/- ### Exit codes of the driver and the scaffolder -/

/-- Implicit node success exit status. -/
def exitSuccess : Nat := 0

/-- Exit code when the optional `.env` override file exists but cannot be
read or parsed. -/
def exitEnvFileUnreadable : Nat := 1

/-- Exit code when loading `ts-scaffolder.json` fails with `ENOENT`. -/
def exitSettingsMissing : Nat := 2

/-- Exit code of the `main().catch` handler (both driver and scaffolder). -/
def exitUncaughtError : Nat := 3

/-- Exit code of the `FATAL` case of the watch event handler. -/
def exitFatalWatch : Nat := 4

/- ### Effects of the driver's `main` -/

inductive Effect where
  | cleanOutput (folder : String)
  | startWatchSession
  | runBatchBuild
deriving DecidableEq, Repr

def Effect.isCleanOutput : Effect → Bool
  | .cleanOutput _ => true
  | _ => false

/-- The state-changing steps of the driver's `main`, in order: the output
folder is rimraf-ed whenever it is not absolute (the guard does not consult
the mode), then either a watch session starts or a batch build runs. -/
def mainEffects (cfg : ResolvedConfig) : List Effect :=
  (if isAbsolute cfg.output.folder then []
   else [Effect.cleanOutput cfg.output.folder]) ++
  [if cfg.watch then Effect.startWatchSession else Effect.runBatchBuild]

/- ### The watch event handler -/

inductive WatchEventCode where
  | START
  | BUNDLE_START
  | BUNDLE_END
  | END
  | ERROR
  | FATAL
deriving DecidableEq, Repr

/-- The `switch` of the watcher event callback: `some code` means the case
calls `process.exit(code)`, `none` means the callback only logs and the
session keeps waiting for further events. -/
def handleWatchEvent : WatchEventCode → Option Nat
  | .FATAL => some exitFatalWatch
  | _ => none

/-- Feeding a sequence of watcher events to the handler: the process exits
with the first exit request, otherwise the session outlives all events. -/
def runWatchEvents : List WatchEventCode → Option Nat
  | [] => none
  | e :: rest =>
      match handleWatchEvent e with
      | some code => some code
      | none => runWatchEvents rest

/- ### Driver startup -/

inductive DriverFailure where
  | exited (code : Nat)
  | thrown (msg : String)
deriving DecidableEq, Repr

/-- Module-level evaluation of the driver: the `.env` block (exits 1 on a
read failure), the mandatory `ts-scaffolder.json` load (exits 2 on ENOENT),
then pipeline assembly (a thrown assembly error escapes uncaught).  On
success it yields the assembled pipeline and the effect list of `main`. -/
def runDriver (envFileOk settingsPresent : Bool) (cfg : ResolvedConfig)
    (env : List (String × String)) (cwd : String) :
    Except DriverFailure (BundleConfig × List Effect) :=
  if !envFileOk then Except.error (DriverFailure.exited exitEnvFileUnreadable)
  else if !settingsPresent then
    Except.error (DriverFailure.exited exitSettingsMissing)
  else
    match rollupConfig cfg env cwd with
    | Except.error msg => Except.error (DriverFailure.thrown msg)
    | Except.ok rc => Except.ok (rc, mainEffects cfg)

/- ### The scaffolder (`src/init.js`) -/

/-- `path.basename`: the part after the last slash. -/
def basename (p : String) : String :=
  String.mk ((splitOnChar '/' p.data).getLastD [])

/-- `path.extname`: the suffix of the basename from its last dot; empty when
the basename has no dot or only a leading dot. -/
def extname (p : String) : String :=
  match splitOnChar '.' (basename p).data with
  | [] => ""
  | [_] => ""
  | first :: rest =>
      if first.isEmpty && rest.length == 1 then ""
      else String.mk ('.' :: rest.getLastD [])

/-- The `relPath.replace(/\.ejs$/, "")` step of the template branch. -/
def stripEjs (relPath : String) : String :=
  if strEndsWith relPath ".ejs" then strDropRight relPath 4 else relPath

/-- The target project's files, path to content.  JavaScript object /
file-system update semantics: setting an existing key overwrites it in
place, a new key is appended. -/
abbrev Fs := List (String × String)

def setKey (m : List (String × String)) (k v : String) : List (String × String) :=
  match m with
  | [] => [(k, v)]
  | (k0, v0) :: rest =>
      if k0 == k then (k, v) :: rest else (k0, v0) :: setKey rest k v

/-- The file branch of the crawl callback in the scaffolder's `main`:
whitelisted `.ejs` files are rendered and written (overwriting allowed),
every other file is copied with `fs.constants.COPYFILE_EXCL`, which fails
with `EEXIST` when the destination already exists.  `render` stands for the
external `ejs.renderFile` collaborator.  Directory entries only issue
`mkdir` and never touch file contents, so they are not modelled. -/
def scaffoldFile (render : String → String) (baseDir : String) (fs : Fs)
    (relPath content : String) : Except String Fs :=
  if [".ejs"].contains (extname relPath) then
    Except.ok (setKey fs (pathJoin baseDir (stripEjs relPath)) (render content))
  else
    match fs.lookup (pathJoin baseDir relPath) with
    | some _ => Except.error "EEXIST"
    | none => Except.ok (setKey fs (pathJoin baseDir relPath) content)

/-- Sequential processing of the template files found by the crawl, in
visit order; the first failing copy rejects the whole crawl, carrying the
file-system state at the moment of failure. -/
def processTemplates (render : String → String) (baseDir : String) :
    Fs → List (String × String) → Except (String × Fs) Fs
  | fs, [] => Except.ok fs
  | fs, (relPath, content) :: rest =>
      match scaffoldFile render baseDir fs relPath content with
      | Except.error e => Except.error (e, fs)
      | Except.ok fs2 => processTemplates render baseDir fs2 rest

/-- The target `package.json`: the `scripts` object (absent or an ordered
key/value map) and all other top-level fields. -/
structure PkgJson where
  scripts : Option (List (String × String))
  others : List (String × String)
deriving DecidableEq, Repr

/-- The manifest-patching step of the scaffolder's `main`: create `scripts`
if it is null, then assign `scripts.start` and `scripts.build`. -/
def patchPkgScripts (pkg : PkgJson) : PkgJson :=
  let scripts0 := pkg.scripts.getD []
  let scripts1 := setKey scripts0 "start" "ts-scaffolder-scripts --watch"
  let scripts2 := setKey scripts1 "build" "ts-scaffolder-scripts"
  { pkg with scripts := some scripts2 }

inductive InitResult where
  | exited (code : Nat) (fs : Fs)
  | success (fs : Fs) (pkg : PkgJson)
deriving DecidableEq, Repr

/-- The scaffolder's `main` wrapped in its `main().catch` handler: a
rejected scaffolding step aborts the run through the uncaught-error exit
path; on success the manifest is patched. -/
def initRun (render : String → String) (baseDir : String) (fs : Fs)
    (entries : List (String × String)) (pkg : PkgJson) : InitResult :=
  match processTemplates render baseDir fs entries with
  | Except.error (_, fsAtFail) => InitResult.exited exitUncaughtError fsAtFail
  | Except.ok fs2 => InitResult.success fs2 (patchPkgScripts pkg)

/- ### Concrete configurations used by witnesses and counterexamples -/

/-- A watch-mode, non-webapp configuration (all other fields at the convict
defaults). -/
def cfgWatch : ResolvedConfig :=
  { watch := true
    debug := false
    input := { folder := "src", envPrefix := "WEBAPP_ENV_", htmlTemplate := "template.html" }
    output := { bundle := "bundle", folder := "dist", umdName := "myApp",
                minify := true, banner := "/* Bundled with rollup and <3! */",
                isWebapp := false } }

/-- A batch-mode, minifying, non-webapp configuration. -/
def cfgBuildMin : ResolvedConfig :=
  { cfgWatch with watch := false }

/-- A batch-mode configuration with minification disabled. -/
def cfgBuildNoMin : ResolvedConfig :=
  { cfgWatch with
    watch := false
    output := { cfgWatch.output with minify := false } }

/-- A watch-mode webapp configuration. -/
def cfgWatchWebapp : ResolvedConfig :=
  { cfgWatch with output := { cfgWatch.output with isWebapp := true } }

/-- A batch-mode webapp configuration. -/
def cfgBuildWebapp : ResolvedConfig :=
  { cfgWatch with
    watch := false
    output := { cfgWatch.output with isWebapp := true } }

/-- A process environment holding one variable with the configured webapp
prefix. -/
def envWithPrefixedVar : List (String × String) := [("WEBAPP_ENV_FOO", "bar")]

/-- The successfully assembled pipeline of a configuration (default on
assembly failure); used to instantiate theorems at concrete inputs. -/
def rcOf (cfg : ResolvedConfig) (env : List (String × String)) (cwd : String) :
    BundleConfig :=
  match rollupConfig cfg env cwd with
  | Except.ok rc => rc
  | Except.error _ => default

/-- A concrete target manifest with a pre-existing `scripts.build` entry
and unrelated top-level fields. -/
def pkgEx : PkgJson :=
  { scripts := some [("test", "jest"), ("build", "old-build")]
    others := [("name", "demo"), ("version", "1.0.0")] }

/- ### Helper lemmas -/

/-- The stage names of the watch/build branch, by mode and minify flag. -/
theorem rollupConfigBase_plugins_names (cfg : ResolvedConfig) (cwd : String) :
    (rollupConfigBase cfg cwd).plugins.map pluginName =
      ["node-resolve", "commonjs", "typescript2"] ++
        (if cfg.watch = false ∧ cfg.output.minify = true then ["uglify"] else []) := by
  cases hw : cfg.watch <;> cases hm : cfg.output.minify <;>
    simp [rollupConfigBase, createBundleConfig, defaultPlugins, pluginName, hw, hm]

/-- The output descriptor of the watch/build branch. -/
theorem rollupConfigBase_output (cfg : ResolvedConfig) (cwd : String) :
    (rollupConfigBase cfg cwd).output =
      { file :=
          if cfg.watch then (computedOptions cfg cwd).bundlePath
          else if cfg.output.minify then (computedOptions cfg cwd).minifiedBundlePath
          else (computedOptions cfg cwd).bundlePath
        name := cfg.output.umdName
        format := "umd"
        banner := some cfg.output.banner
        sourcemap := if cfg.watch then some "inline" else none } := by
  cases hw : cfg.watch <;> cases hm : cfg.output.minify <;>
    simp [rollupConfigBase, createBundleConfig, hw, hm]

/-- Shape of a successful assembly: the watch/build branch configuration
with the webapp stages (and browsersync in watch mode) appended. -/
theorem rollupConfig_ok_shape (cfg : ResolvedConfig) (env : List (String × String))
    (cwd : String) (rc : BundleConfig)
    (h : rollupConfig cfg env cwd = Except.ok rc) :
    rc.input = (rollupConfigBase cfg cwd).input ∧
    rc.output = (rollupConfigBase cfg cwd).output ∧
    ∃ tail : List RollupPlugin,
      rc.plugins = (rollupConfigBase cfg cwd).plugins ++ tail ∧
      tail.map pluginName =
        (if cfg.output.isWebapp then
          ["replace", "generate-html-template"] ++
            (if cfg.watch then ["browsersync"] else [])
         else []) := by
  unfold rollupConfig at h
  cases hW : cfg.output.isWebapp with
  | false =>
      rw [hW] at h
      simp at h
      subst h
      exact ⟨rfl, rfl, [], by simp, by simp [hW]⟩
  | true =>
      rw [hW] at h
      simp at h
      cases hg : getWebappEnvConfig env cfg.input.envPrefix with
      | error e => rw [hg] at h; simp at h
      | ok envCfg =>
          rw [hg] at h
          simp at h
          cases hw : cfg.watch with
          | false =>
              rw [hw] at h
              simp at h
              subst h
              refine ⟨rfl, rfl, webappPlugins cfg cwd envCfg, rfl, ?_⟩
              simp [webappPlugins, pluginName, hW, hw]
          | true =>
              rw [hw] at h
              simp at h
              subst h
              refine ⟨rfl, rfl,
                webappPlugins cfg cwd envCfg ++
                  [RollupPlugin.browsersync cfg.output.folder "/static" "static"],
                by simp, ?_⟩
              simp [webappPlugins, pluginName, hW, hw]

/- ### Claim theorems -/

/-- C1: for every valid ResolvedConfig with watch=true, the assembled
pipeline contains no minification stage, its output destination equals the
unminified bundle path, and the output descriptor carries an inline source
map, regardless of the value of output.minify. -/
theorem spec_c1 (cfg : ResolvedConfig) (env : List (String × String))
    (cwd : String) (rc : BundleConfig)
    (hw : cfg.watch = true)
    (h : rollupConfig cfg env cwd = Except.ok rc) :
    "uglify" ∉ rc.plugins.map pluginName ∧
    rc.output.file = (computedOptions cfg cwd).bundlePath ∧
    rc.output.sourcemap = some "inline" := by
  obtain ⟨hin, hout, tail, hp, hnames⟩ := rollupConfig_ok_shape cfg env cwd rc h
  refine ⟨?_, ?_, ?_⟩
  · rw [hp, List.map_append, rollupConfigBase_plugins_names, hnames]
    cases hW : cfg.output.isWebapp <;> simp [hw, hW]
  · rw [hout, rollupConfigBase_output]
    simp [hw]
  · rw [hout, rollupConfigBase_output]
    simp [hw]

/-- Witness for C1 at the default watch-mode configuration. -/
theorem spec_c1_witness :
    "uglify" ∉ (rcOf cfgWatch [] "/cwd").plugins.map pluginName ∧
    (rcOf cfgWatch [] "/cwd").output.file =
      (computedOptions cfgWatch "/cwd").bundlePath ∧
    (rcOf cfgWatch [] "/cwd").output.sourcemap = some "inline" :=
  spec_c1 cfgWatch [] "/cwd" (rcOf cfgWatch [] "/cwd") rfl rfl

/-- C2: for every valid ResolvedConfig with watch=false and
output.minify=true, the assembled pipeline contains exactly one
minification stage, positioned directly after the three base stages
(module resolution, interop shimming, transpilation), and the output
destination equals the minified bundle path; with output.minify=false no
minification stage is present and the destination is the unminified
bundle path. -/
theorem spec_c2 (cfg : ResolvedConfig) (env : List (String × String))
    (cwd : String) (rc : BundleConfig)
    (hw : cfg.watch = false)
    (h : rollupConfig cfg env cwd = Except.ok rc) :
    (cfg.output.minify = true →
      (∃ rest, rc.plugins.map pluginName =
          ["node-resolve", "commonjs", "typescript2", "uglify"] ++ rest ∧
        "uglify" ∉ rest) ∧
      rc.output.file = (computedOptions cfg cwd).minifiedBundlePath) ∧
    (cfg.output.minify = false →
      "uglify" ∉ rc.plugins.map pluginName ∧
      rc.output.file = (computedOptions cfg cwd).bundlePath) := by
  obtain ⟨hin, hout, tail, hp, hnames⟩ := rollupConfig_ok_shape cfg env cwd rc h
  constructor
  · intro hm
    constructor
    · refine ⟨tail.map pluginName, ?_, ?_⟩
      · rw [hp, List.map_append, rollupConfigBase_plugins_names]
        simp [hw, hm]
      · rw [hnames]
        cases hW : cfg.output.isWebapp <;> simp [hw, hW]
    · rw [hout, rollupConfigBase_output]
      simp [hw, hm]
  · intro hm
    constructor
    · rw [hp, List.map_append, rollupConfigBase_plugins_names, hnames]
      cases hW : cfg.output.isWebapp <;> simp [hw, hm, hW]
    · rw [hout, rollupConfigBase_output]
      simp [hw, hm]

/-- Witness for C2 at the default batch-mode minifying configuration. -/
theorem spec_c2_witness :
    (cfgBuildMin.output.minify = true →
      (∃ rest, (rcOf cfgBuildMin [] "/cwd").plugins.map pluginName =
          ["node-resolve", "commonjs", "typescript2", "uglify"] ++ rest ∧
        "uglify" ∉ rest) ∧
      (rcOf cfgBuildMin [] "/cwd").output.file =
        (computedOptions cfgBuildMin "/cwd").minifiedBundlePath) ∧
    (cfgBuildMin.output.minify = false →
      "uglify" ∉ (rcOf cfgBuildMin [] "/cwd").plugins.map pluginName ∧
      (rcOf cfgBuildMin [] "/cwd").output.file =
        (computedOptions cfgBuildMin "/cwd").bundlePath) :=
  spec_c2 cfgBuildMin [] "/cwd" (rcOf cfgBuildMin [] "/cwd") rfl rfl

/-- C3: for every valid ResolvedConfig (whose assembly succeeds), the
environment-substitution and HTML-generation stages are present iff
output.isWebapp=true, the live-reload stage is present iff
output.isWebapp=true and watch=true, and when present these stages form
the final segment of the pipeline, after all base and minification
stages, in the relative order environment-substitution, HTML-generation,
live-reload. -/
theorem spec_c3 (cfg : ResolvedConfig) (env : List (String × String))
    (cwd : String) (rc : BundleConfig)
    (h : rollupConfig cfg env cwd = Except.ok rc) :
    ("replace" ∈ rc.plugins.map pluginName ↔ cfg.output.isWebapp = true) ∧
    ("generate-html-template" ∈ rc.plugins.map pluginName ↔
      cfg.output.isWebapp = true) ∧
    ("browsersync" ∈ rc.plugins.map pluginName ↔
      (cfg.output.isWebapp = true ∧ cfg.watch = true)) ∧
    ∃ pre, rc.plugins.map pluginName =
        pre ++
          (if cfg.output.isWebapp then
            ["replace", "generate-html-template"] ++
              (if cfg.watch then ["browsersync"] else [])
           else []) ∧
      ∀ n ∈ pre, n ≠ "replace" ∧ n ≠ "generate-html-template" ∧
        n ≠ "browsersync" := by
  obtain ⟨hin, hout, tail, hp, hnames⟩ := rollupConfig_ok_shape cfg env cwd rc h
  have hnames2 : rc.plugins.map pluginName =
      (["node-resolve", "commonjs", "typescript2"] ++
        (if cfg.watch = false ∧ cfg.output.minify = true then ["uglify"] else [])) ++
      (if cfg.output.isWebapp then
        ["replace", "generate-html-template"] ++
          (if cfg.watch then ["browsersync"] else [])
       else []) := by
    rw [hp, List.map_append, rollupConfigBase_plugins_names, hnames]
  rw [hnames2]
  refine ⟨?_, ?_, ?_, ?_⟩
  · cases hW : cfg.output.isWebapp <;>
      cases hw : cfg.watch <;> cases hm : cfg.output.minify <;>
        simp [hW, hw, hm]
  · cases hW : cfg.output.isWebapp <;>
      cases hw : cfg.watch <;> cases hm : cfg.output.minify <;>
        simp [hW, hw, hm]
  · cases hW : cfg.output.isWebapp <;>
      cases hw : cfg.watch <;> cases hm : cfg.output.minify <;>
        simp [hW, hw, hm]
  · refine ⟨["node-resolve", "commonjs", "typescript2"] ++
      (if cfg.watch = false ∧ cfg.output.minify = true then ["uglify"] else []),
      rfl, ?_⟩
    cases hw : cfg.watch <;> cases hm : cfg.output.minify <;>
      simp [hw, hm]

/-- Witness for C3 at the watch-mode webapp configuration with an empty
process environment. -/
theorem spec_c3_witness :
    ("replace" ∈ (rcOf cfgWatchWebapp [] "/cwd").plugins.map pluginName ↔
      cfgWatchWebapp.output.isWebapp = true) ∧
    ("generate-html-template" ∈
        (rcOf cfgWatchWebapp [] "/cwd").plugins.map pluginName ↔
      cfgWatchWebapp.output.isWebapp = true) ∧
    ("browsersync" ∈ (rcOf cfgWatchWebapp [] "/cwd").plugins.map pluginName ↔
      (cfgWatchWebapp.output.isWebapp = true ∧ cfgWatchWebapp.watch = true)) ∧
    ∃ pre, (rcOf cfgWatchWebapp [] "/cwd").plugins.map pluginName =
        pre ++
          (if cfgWatchWebapp.output.isWebapp then
            ["replace", "generate-html-template"] ++
              (if cfgWatchWebapp.watch then ["browsersync"] else [])
           else []) ∧
      ∀ n ∈ pre, n ≠ "replace" ∧ n ≠ "generate-html-template" ∧
        n ≠ "browsersync" :=
  spec_c3 cfgWatchWebapp [] "/cwd" (rcOf cfgWatchWebapp [] "/cwd") rfl

/-- C4: evaluation of the code at the claim's scenario.  With
output.isWebapp=true and a process environment containing a variable whose
name starts with the configured prefix, assembly does not produce a
replacement map at all: the filter inside getWebappEnvConfig dereferences
the undefined `options` binding and the whole assembly throws, instead of
mapping `process.env.WEBAPP_ENV_FOO` to the variable's literal value as
the claim states. -/
theorem spec_c4_eval :
    rollupConfig cfgBuildWebapp envWithPrefixedVar "/cwd" =
      Except.error "ReferenceError: options is not defined" ∧
    getWebappEnvConfig envWithPrefixedVar cfgBuildWebapp.input.envPrefix =
      Except.error "ReferenceError: options is not defined" := by
  constructor <;> rfl

/-- C5 counterexample: the claim says deletion happens only for batch
(non-watch) builds, but with watch=true and the relative default output
folder the driver's main still performs the recursive deletion. -/
theorem spec_c5_counterexample :
    cfgWatch.watch = true ∧
    isAbsolute cfgWatch.output.folder = false ∧
    (mainEffects cfgWatch).any Effect.isCleanOutput = true := by
  refine ⟨rfl, rfl, rfl⟩

/-- C5 (amended): the output folder is recursively deleted, as the first
step before the build or watch session, exactly when output.folder is not
an absolute path — in watch mode as well as batch mode; an absolute
output.folder is never deleted in any mode. -/
theorem spec_c5 (cfg : ResolvedConfig) :
    (mainEffects cfg).any Effect.isCleanOutput =
      !isAbsolute cfg.output.folder ∧
    (mainEffects cfg).head? =
      some (if isAbsolute cfg.output.folder then
              (if cfg.watch then Effect.startWatchSession
               else Effect.runBatchBuild)
            else Effect.cleanOutput cfg.output.folder) := by
  cases ha : isAbsolute cfg.output.folder <;>
    cases hw : cfg.watch <;>
      simp [mainEffects, ha, hw, Effect.isCleanOutput]

/-- C6: in watch mode a recoverable Error event never terminates the watch
session or the process — the handler requests no exit and the session
still processes every subsequent event — whereas a Fatal event terminates
the whole process immediately with its own dedicated exit code. -/
theorem spec_c6 (rest : List WatchEventCode) :
    runWatchEvents (WatchEventCode.ERROR :: rest) = runWatchEvents rest ∧
    handleWatchEvent WatchEventCode.ERROR = none ∧
    runWatchEvents (WatchEventCode.FATAL :: rest) = some exitFatalWatch ∧
    exitFatalWatch ≠ exitSuccess := by
  refine ⟨rfl, rfl, rfl, by decide⟩

/-- C7: the exit codes of the four fatal failure categories —
environment-override file unreadable, settings file missing, fatal
watch-session error, uncaught top-level error — are pairwise distinct
non-zero values, 0 is reserved for success, and each code is the one its
failure site actually uses. -/
theorem spec_c7 :
    (exitEnvFileUnreadable ≠ exitSettingsMissing ∧
     exitEnvFileUnreadable ≠ exitUncaughtError ∧
     exitEnvFileUnreadable ≠ exitFatalWatch ∧
     exitSettingsMissing ≠ exitUncaughtError ∧
     exitSettingsMissing ≠ exitFatalWatch ∧
     exitUncaughtError ≠ exitFatalWatch) ∧
    (exitEnvFileUnreadable ≠ exitSuccess ∧
     exitSettingsMissing ≠ exitSuccess ∧
     exitUncaughtError ≠ exitSuccess ∧
     exitFatalWatch ≠ exitSuccess ∧
     exitSuccess = 0) ∧
    (∀ (b : Bool) (cfg : ResolvedConfig) (env : List (String × String))
        (cwd : String),
      runDriver false b cfg env cwd =
        Except.error (DriverFailure.exited exitEnvFileUnreadable)) ∧
    handleWatchEvent WatchEventCode.FATAL = some exitFatalWatch := by
  refine ⟨by decide, by decide, fun b cfg env cwd => rfl, rfl⟩

/-- C8: if the settings file ts-scaffolder.json is absent, the driver
terminates with the settings-missing exit code before any pipeline
assembly: no pipeline description and no effect list of main is ever
produced. -/
theorem spec_c8 (cfg : ResolvedConfig) (env : List (String × String))
    (cwd : String) :
    runDriver true false cfg env cwd =
      Except.error (DriverFailure.exited exitSettingsMissing) ∧
    ∀ (rc : BundleConfig) (effects : List Effect),
      runDriver true false cfg env cwd ≠ Except.ok (rc, effects) := by
  refine ⟨rfl, ?_⟩
  intro rc effects hcontra
  simp [runDriver] at hcontra

/-- Setting a key finds it again. -/
theorem lookup_setKey_self (m : List (String × String)) (k v : String) :
    (setKey m k v).lookup k = some v := by
  induction m with
  | nil => simp [setKey, List.lookup]
  | cons hd tl ih =>
      obtain ⟨k0, v0⟩ := hd
      by_cases h : k0 = k
      · simp [setKey, h, List.lookup]
      · have hb : (k == k0) = false := beq_eq_false_iff_ne.mpr (Ne.symm h)
        simp [setKey, h, List.lookup, hb, ih]

/-- Setting a key leaves every other key unchanged. -/
theorem lookup_setKey_ne (m : List (String × String)) (k v k2 : String)
    (h : k2 ≠ k) :
    (setKey m k v).lookup k2 = m.lookup k2 := by
  induction m with
  | nil =>
      have hb : (k2 == k) = false := beq_eq_false_iff_ne.mpr h
      simp [setKey, List.lookup, hb]
  | cons hd tl ih =>
      obtain ⟨k0, v0⟩ := hd
      by_cases hk : k0 = k
      · subst hk
        have hb : (k2 == k0) = false := beq_eq_false_iff_ne.mpr h
        simp [setKey, List.lookup, hb]
      · simp [setKey, hk, List.lookup, ih]

/-- C9: a non-whitelisted (non-.ejs) template file whose destination path
already exists makes the verbatim exclusive-create copy fail instead of
overwriting, the crawl rejects at that file, and the scaffolding run
aborts through the uncaught-error exit path with the existing file's
content unchanged. -/
theorem spec_c9 (render : String → String) (baseDir relPath content c : String)
    (fs : Fs) (rest : List (String × String)) (pkg : PkgJson)
    (hExt : extname relPath ≠ ".ejs")
    (hExists : fs.lookup (pathJoin baseDir relPath) = some c) :
    scaffoldFile render baseDir fs relPath content = Except.error "EEXIST" ∧
    processTemplates render baseDir fs ((relPath, content) :: rest) =
      Except.error ("EEXIST", fs) ∧
    initRun render baseDir fs ((relPath, content) :: rest) pkg =
      InitResult.exited exitUncaughtError fs ∧
    fs.lookup (pathJoin baseDir relPath) = some c := by
  have hc : ([".ejs"] : List String).contains (extname relPath) = false := by
    simp [List.contains, hExt]
  have h1 : scaffoldFile render baseDir fs relPath content =
      Except.error "EEXIST" := by
    unfold scaffoldFile
    rw [hc]
    simp [hExists]
  have h2 : processTemplates render baseDir fs ((relPath, content) :: rest) =
      Except.error ("EEXIST", fs) := by
    simp [processTemplates, h1]
  exact ⟨h1, h2, by simp [initRun, h2], hExists⟩

/-- Witness for C9: scaffolding over a project that already holds a
README.md with content "old". -/
theorem spec_c9_witness :
    scaffoldFile (fun s => s) "/proj" [("/proj/README.md", "old")]
      "README.md" "new" = Except.error "EEXIST" ∧
    processTemplates (fun s => s) "/proj" [("/proj/README.md", "old")]
      [("README.md", "new")] =
      Except.error ("EEXIST", [("/proj/README.md", "old")]) ∧
    initRun (fun s => s) "/proj" [("/proj/README.md", "old")]
      [("README.md", "new")] pkgEx =
      InitResult.exited exitUncaughtError [("/proj/README.md", "old")] ∧
    ([("/proj/README.md", "old")] : Fs).lookup (pathJoin "/proj" "README.md") =
      some "old" :=
  spec_c9 (fun s => s) "/proj" "README.md" "new" "old"
    [("/proj/README.md", "old")] [] pkgEx (by decide) (by decide)

/-- C10: the manifest patch sets exactly scripts.start and scripts.build
(creating the scripts object only if absent); every other top-level field
and every other pre-existing scripts entry is preserved unchanged. -/
theorem spec_c10 (pkg : PkgJson) (k : String)
    (h1 : k ≠ "start") (h2 : k ≠ "build") :
    (patchPkgScripts pkg).others = pkg.others ∧
    (patchPkgScripts pkg).scripts.isSome = true ∧
    ((patchPkgScripts pkg).scripts.getD []).lookup "start" =
      some "ts-scaffolder-scripts --watch" ∧
    ((patchPkgScripts pkg).scripts.getD []).lookup "build" =
      some "ts-scaffolder-scripts" ∧
    ((patchPkgScripts pkg).scripts.getD []).lookup k =
      (pkg.scripts.getD []).lookup k := by
  refine ⟨rfl, rfl, ?_, ?_, ?_⟩
  · show (setKey (setKey (pkg.scripts.getD []) "start" "ts-scaffolder-scripts --watch")
        "build" "ts-scaffolder-scripts").lookup "start" = _
    rw [lookup_setKey_ne _ _ _ _ (by decide), lookup_setKey_self]
  · exact lookup_setKey_self _ _ _
  · show (setKey (setKey (pkg.scripts.getD []) "start" "ts-scaffolder-scripts --watch")
        "build" "ts-scaffolder-scripts").lookup k = _
    rw [lookup_setKey_ne _ _ _ _ h2, lookup_setKey_ne _ _ _ _ h1]

/-- Witness for C10 at a manifest holding a scripts.test entry, an old
scripts.build entry, and unrelated top-level fields. -/
theorem spec_c10_witness :
    (patchPkgScripts pkgEx).others = pkgEx.others ∧
    (patchPkgScripts pkgEx).scripts.isSome = true ∧
    ((patchPkgScripts pkgEx).scripts.getD []).lookup "start" =
      some "ts-scaffolder-scripts --watch" ∧
    ((patchPkgScripts pkgEx).scripts.getD []).lookup "build" =
      some "ts-scaffolder-scripts" ∧
    ((patchPkgScripts pkgEx).scripts.getD []).lookup "test" =
      (pkgEx.scripts.getD []).lookup "test" :=
  spec_c10 pkgEx "test" (by decide) (by decide)
